import Mathlib

/-!
# Shallow embedding of the group3-backend wallet server

This file embeds the money-movement routes of the Express/Mongoose wallet
backend (src/server.js and the merchant variant in src/unnamed/part_000)
as pure Lean functions over an explicit state, and proves or refutes the
frozen claims about them.

Modelling conventions:
* Balances and amounts are rationals (`ℚ`); the source stores JS numbers.
* The Mongo collections are modelled as functions from a single opaque
  string key space (`_id` and `studentNumber`/`merchantId` are identified;
  all claims treat identifiers as opaque).
* Each route handler returns `St × Option Err`: `none` is the success
  response, `some e` the error response.  Every error return in the
  source happens before any `save()` call on these paths, so the state
  component of an error result is the unchanged input state, mirroring
  the source line by line.
* Mongoose returns a fresh hydrated document per query, so when the same
  account is loaded twice (e.g. sender and recipient resolve to the same
  user) the two in-memory copies are independent snapshots; the model
  therefore computes both new balances from the balances read at the
  start and performs the two writes in the source's `save()` order.
-/

/-- Transaction `type` enum of the Transaction schema
(`server.js` lines 36-48, part_000 lines 38-50). -/
inductive Kind where
  | send
  | receive
  | withdraw
  | upload
  | merchant_payment
deriving DecidableEq, Repr

/-- A Transaction document (`server.js` lines 36-48).  The schema fields
`from` / `to` are named `fromId` / `toId` here (`from` is reserved in Lean);
they hold a student number, a merchant id, or the sentinel strings
`"UPLOAD"` / `"WITHDRAW"`. -/
structure Entry where
  fromId : String
  toId : String
  amount : ℚ
  kind : Kind
deriving DecidableEq, Repr

/-- Status enum of the QrCodeTransactionRequest schema
(`server.js` lines 58-62). -/
inductive QrStatus where
  | in_progress
  | completed
  | cancelled
  | failed
deriving DecidableEq, Repr

/-- A QrCodeTransactionRequest document (`server.js` lines 50-69): the
schema field `to` (named `toId` here, `to` being reserved in Lean) is the
receiving user's id, `amount` is optional, `timestamp` defaults to the
creation time.  The schema declares no expiry. -/
structure QrReq where
  toId : String
  amount : Option ℚ
  status : QrStatus
  timestamp : ℕ
deriving DecidableEq, Repr

/-- Status enum of the PendingPayment schema (part_000 lines 57-61). -/
inductive PayStatus where
  | pending
  | completed
  | cancelled
deriving DecidableEq, Repr

/-- A PendingPayment document (part_000 lines 52-65), keyed by `paymentId`.
The schema's `createdAt` carries a storage-level TTL (`expires: "1h"`)
that deletes the whole document about an hour after creation; deletion is
modelled as the key being absent from the store. -/
structure PendingPayment where
  merchantId : String
  amount : ℚ
  status : PayStatus
deriving DecidableEq, Repr

/-- The mutable server state: the User, Merchant, QrCodeTransactionRequest
and PendingPayment collections, and the append-only Transaction ledger. -/
structure St where
  users : String → Option ℚ
  merchants : String → Option ℚ
  qrRequests : String → Option QrReq
  payments : String → Option PendingPayment
  ledger : List Entry

/-- The distinguishable error responses of the routes, one constructor per
distinct error body in the source. -/
inductive Err where
  | RecipientNotFound
  | InsufficientFunds
  | UserNotFound
  | UserAlreadyExists
  | TxNotFoundOrCompleted
  | AmountRequired
  | PaymentNotFound
  | PaymentAlreadyProcessed
  | StudentNotFound
  | InvalidPassword
  | MerchantNotFound
  | InternalError
deriving DecidableEq, Repr

/-- `POST /register` (`server.js` lines 103-126): rejects an already-known
identifier, otherwise creates the user with the schema's default
balance 0. -/
def register (s : St) (id : String) : St × Option Err :=
  match s.users id with
  | some _ => (s, some .UserAlreadyExists)
  | none =>
      ({ s with users := fun x => if x = id then some 0 else s.users x }, none)

/-- `POST /send` (`server.js` lines 183-212): loads sender (by token id) and
recipient (by student number), rejects a missing recipient, then rejects
`sender.balance < amount`; otherwise debits the sender, credits the
recipient (both from the initially read balances, saved sender first),
and appends one `send` ledger entry.  A missing sender makes
`sender.balance` throw, surfacing as the catch-all 500. -/
def send (s : St) (senderId toStudentNumber : String) (amount : ℚ) :
    St × Option Err :=
  match s.users toStudentNumber with
  | none => (s, some .RecipientNotFound)
  | some recipBal =>
    match s.users senderId with
    | none => (s, some .InternalError)
    | some senderBal =>
      if senderBal < amount then (s, some .InsufficientFunds)
      else
        let users1 := fun x =>
          if x = senderId then some (senderBal - amount) else s.users x
        let users2 := fun x =>
          if x = toStudentNumber then some (recipBal + amount) else users1 x
        ({ s with
            users := users2
            ledger := s.ledger ++ [⟨senderId, toStudentNumber, amount, .send⟩] },
          none)

/-- `POST /withdraw` (`server.js` lines 308-331): rejects
`user.balance < amount`, otherwise debits the user and appends one
`withdraw` ledger entry with `to = "WITHDRAW"`. -/
def withdraw (s : St) (userId : String) (amount : ℚ) : St × Option Err :=
  match s.users userId with
  | none => (s, some .InternalError)
  | some bal =>
    if bal < amount then (s, some .InsufficientFunds)
    else
      ({ s with
          users := fun x => if x = userId then some (bal - amount) else s.users x
          ledger := s.ledger ++ [⟨userId, "WITHDRAW", amount, .withdraw⟩] },
        none)

/-- `POST /upload` (`server.js` lines 334-365): rejects a missing user,
otherwise credits the user and appends one `upload` ledger entry with
`from = "UPLOAD"`.  No debit happens anywhere. -/
def upload (s : St) (userId : String) (amount : ℚ) : St × Option Err :=
  match s.users userId with
  | none => (s, some .UserNotFound)
  | some bal =>
      ({ s with
          users := fun x => if x = userId then some (bal + amount) else s.users x
          ledger := s.ledger ++ [⟨"UPLOAD", userId, amount, .upload⟩] },
        none)

/-- The amount resolution of `POST /qr/:id` (`server.js` lines 274-277):
`const amount = transactionRequest.amount || req.body.amount` followed by
`if (!amount)`.  JS `||` and `!` treat the number 0 as falsy, so a stored
amount of 0 falls through to the body amount, and a resolved 0 is
rejected as missing. -/
def resolveAmount (reqAmount bodyAmount : Option ℚ) : Option ℚ :=
  let r := match reqAmount with
    | some a => if a = 0 then bodyAmount else some a
    | none => bodyAmount
  match r with
  | some a => if a = 0 then none else some a
  | none => none

/-- `POST /qr/:id` (`server.js` lines 248-305): loads the request; a missing
request or a status other than `in_progress` yields the single 404
"Transaction not found or already completed"; then loads recipient
(`request.to`) and sender, rejects a missing recipient, resolves the
amount (request amount, else body amount), rejects insufficient funds,
then debits sender and credits recipient from the initially read
balances (sender saved first), flips the request status to `completed`,
and appends one `send` ledger entry.  No expiry of any kind is checked. -/
def qrSettle (s : St) (rid senderId : String) (bodyAmount : Option ℚ) :
    St × Option Err :=
  match s.qrRequests rid with
  | none => (s, some .TxNotFoundOrCompleted)
  | some q =>
    if q.status ≠ .in_progress then (s, some .TxNotFoundOrCompleted)
    else
      match s.users q.toId with
      | none => (s, some .RecipientNotFound)
      | some recipBal =>
        match resolveAmount q.amount bodyAmount with
        | none => (s, some .AmountRequired)
        | some amount =>
          match s.users senderId with
          | none => (s, some .InternalError)
          | some senderBal =>
            if senderBal < amount then (s, some .InsufficientFunds)
            else
              let users1 := fun x =>
                if x = senderId then some (senderBal - amount) else s.users x
              let users2 := fun x =>
                if x = q.toId then some (recipBal + amount) else users1 x
              ({ s with
                  users := users2
                  qrRequests := fun x =>
                    if x = rid then some { q with status := .completed }
                    else s.qrRequests x
                  ledger := s.ledger ++ [⟨senderId, q.toId, amount, .send⟩] },
                none)

/-- The local snapshot a `POST /process-payment/:paymentId` handler holds
after its awaited reads (part_000 lines 448-470): the ids, the balances
read from the store, the payment amount, and the payment document. -/
structure PPLocal where
  studentId : String
  merchantId : String
  studentBal : ℚ
  merchantBal : ℚ
  amount : ℚ
  paymentId : String
  payment : PendingPayment
deriving Repr

/-- The read/validate phase of `POST /process-payment/:paymentId`
(part_000 lines 448-470): loads the payment, rejects a missing one or a
status other than `pending`, loads the student, checks the password,
loads the merchant.  The insufficient-funds check (lines 464-465) is
commented out in the source and therefore absent here. -/
def ppRead (s : St) (paymentId studentNumber : String) (passwordOk : Bool) :
    Except Err PPLocal :=
  match s.payments paymentId with
  | none => .error .PaymentNotFound
  | some p =>
    if p.status ≠ .pending then .error .PaymentAlreadyProcessed
    else
      match s.users studentNumber with
      | none => .error .StudentNotFound
      | some sbal =>
        if ¬ passwordOk then .error .InvalidPassword
        else
          match s.merchants p.merchantId with
          | none => .error .MerchantNotFound
          | some mbal =>
              .ok ⟨studentNumber, p.merchantId, sbal, mbal, p.amount, paymentId, p⟩

/-- The write phase of `POST /process-payment/:paymentId` (part_000 lines
472-487): writes the debited student balance and credited merchant
balance computed from the snapshot, appends one `merchant_payment`
ledger entry, and saves the payment with status `completed`. -/
def ppCommit (s : St) (l : PPLocal) : St :=
  { s with
    users := fun x =>
      if x = l.studentId then some (l.studentBal - l.amount) else s.users x
    merchants := fun x =>
      if x = l.merchantId then some (l.merchantBal + l.amount) else s.merchants x
    ledger := s.ledger ++ [⟨l.studentId, l.merchantId, l.amount, .merchant_payment⟩]
    payments := fun x =>
      if x = l.paymentId then some { l.payment with status := .completed }
      else s.payments x }

/-- `POST /process-payment/:paymentId` (part_000 lines 446-497) run
without interference: the read phase followed, on success, by the write
phase. -/
def processPayment (s : St) (paymentId studentNumber : String)
    (passwordOk : Bool) : St × Option Err :=
  match ppRead s paymentId studentNumber passwordOk with
  | .error e => (s, some e)
  | .ok l => (ppCommit s l, none)

/-- `POST /qr/:id` invoked at wall-clock time `now` (seconds).  The source
handler never reads a clock, so the result does not depend on `now`; the
parameter only makes claims about elapsed time statable. -/
def qrSettleAt (now : ℕ) (s : St) (rid senderId : String)
    (bodyAmount : Option ℚ) : St × Option Err :=
  let _ := now
  qrSettle s rid senderId bodyAmount

/-- Inversion of a successful `send`. -/
lemma send_ok (s s' : St) (A B : String) (m : ℚ)
    (hs : send s A B m = (s', none)) :
    ∃ recipBal senderBal, s.users B = some recipBal ∧ s.users A = some senderBal ∧
      ¬ senderBal < m ∧
      s' = { s with
        users := fun x => if x = B then some (recipBal + m)
          else if x = A then some (senderBal - m) else s.users x
        ledger := s.ledger ++ [⟨A, B, m, .send⟩] } := by
  simp only [send] at hs
  split at hs
  · simp at hs
  · next recipBal hB =>
    split at hs
    · simp at hs
    · next senderBal hA =>
      split at hs
      · simp at hs
      · next hlt =>
        injection hs with h1 _
        exact ⟨recipBal, senderBal, hB, hA, hlt, h1.symm⟩

/-- Inversion of a successful `withdraw`. -/
lemma withdraw_ok (s s' : St) (A : String) (m : ℚ)
    (hs : withdraw s A m = (s', none)) :
    ∃ bal, s.users A = some bal ∧ ¬ bal < m ∧
      s' = { s with
        users := fun x => if x = A then some (bal - m) else s.users x
        ledger := s.ledger ++ [⟨A, "WITHDRAW", m, .withdraw⟩] } := by
  simp only [withdraw] at hs
  split at hs
  · simp at hs
  · next bal hA =>
    split at hs
    · simp at hs
    · injection hs with h1 _
      exact ⟨bal, hA, by assumption, h1.symm⟩

/-- Inversion of a successful `qrSettle`. -/
lemma qrSettle_ok (t t' : St) (rid pid : String) (amt : Option ℚ) (q : QrReq)
    (ht : t.qrRequests rid = some q)
    (hsucc : qrSettle t rid pid amt = (t', none)) :
    q.status = .in_progress ∧
    ∃ recipBal senderBal m, t.users q.toId = some recipBal ∧
      resolveAmount q.amount amt = some m ∧ t.users pid = some senderBal ∧
      ¬ senderBal < m ∧
      t' = { t with
        users := fun x => if x = q.toId then some (recipBal + m)
          else if x = pid then some (senderBal - m) else t.users x
        qrRequests := fun x =>
          if x = rid then some { q with status := .completed } else t.qrRequests x
        ledger := t.ledger ++ [⟨pid, q.toId, m, .send⟩] } := by
  simp only [qrSettle, ht] at hsucc
  split at hsucc
  · simp at hsucc
  · next hin =>
    split at hsucc
    · simp at hsucc
    · next recipBal hr =>
      split at hsucc
      · simp at hsucc
      · next m hm =>
        split at hsucc
        · simp at hsucc
        · next senderBal hsb =>
          split at hsucc
          · simp at hsucc
          · next hlt =>
            injection hsucc with h1 _
            exact ⟨by simpa using hin, recipBal, senderBal, m, hr, hm, hsb, hlt, h1.symm⟩

/-- Inversion of a successful `processPayment` into its two phases. -/
lemma processPayment_ok (v v' : St) (pm st : String) (pw : Bool)
    (hsucc : processPayment v pm st pw = (v', none)) :
    ∃ l, ppRead v pm st pw = .ok l ∧ v' = ppCommit v l := by
  simp only [processPayment] at hsucc
  split at hsucc
  · simp at hsucc
  · next l heq =>
    injection hsucc with h1 _
    exact ⟨l, heq, h1.symm⟩

/-- What a successful `ppRead` says about the snapshot it returns. -/
lemma ppRead_ok_spec (v : St) (pm st : String) (pw : Bool) (p : PendingPayment)
    (l : PPLocal) (hv : v.payments pm = some p)
    (heq : ppRead v pm st pw = .ok l) :
    p.status = .pending ∧ l.studentId = st ∧ l.merchantId = p.merchantId ∧
    l.amount = p.amount ∧ l.paymentId = pm ∧ l.payment = p ∧
    v.users st = some l.studentBal ∧ v.merchants p.merchantId = some l.merchantBal := by
  simp only [ppRead, hv] at heq
  split at heq
  · simp at heq
  · next hpend =>
    split at heq
    · simp at heq
    · next sbal hsb =>
      split at heq
      · simp at heq
      · split at heq
        · simp at heq
        · next mbal hmb =>
          injection heq with h
          subst h
          exact ⟨by simpa using hpend, rfl, rfl, rfl, rfl, rfl, hsb, hmb⟩

/-! ## Concrete states used by individual claims -/

/-- State for C1: student `alice` holds 10, merchant `m1` holds 5, and a
pending merchant payment `p1` over amount 50 awaits settlement. -/
def stC1 : St :=
  { users := fun x => if x = "alice" then some 10 else none
    merchants := fun x => if x = "m1" then some 5 else none
    qrRequests := fun _ => none
    payments := fun x => if x = "p1" then some ⟨"m1", 50, .pending⟩ else none
    ledger := [] }

/-- State for C2: every balance is non-negative (`bob` 5, merchant `m2` 3)
and payment `p2` over amount 12 is pending. -/
def stC2 : St :=
  { users := fun x => if x = "bob" then some 5 else none
    merchants := fun x => if x = "m2" then some 3 else none
    qrRequests := fun _ => none
    payments := fun x => if x = "p2" then some ⟨"m2", 12, .pending⟩ else none
    ledger := [] }

/-- State for C6: `alice` holds 100 and `bob` holds 20. -/
def stC6 : St :=
  { users := fun x => if x = "alice" then some 100 else if x = "bob" then some 20 else none
    merchants := fun _ => none
    qrRequests := fun _ => none
    payments := fun _ => none
    ledger := [] }

/-- State for C7: `alice` holds 100, merchant `m1` holds 0, and payment
`p1` over amount 30 is pending. -/
def stC7 : St :=
  { users := fun x => if x = "alice" then some 100 else none
    merchants := fun x => if x = "m1" then some 0 else none
    qrRequests := fun _ => none
    payments := fun x => if x = "p1" then some ⟨"m1", 30, .pending⟩ else none
    ledger := [] }

/-- The snapshot either concurrent `process-payment` handler holds after
its reads against `stC7`. -/
def locC7 : PPLocal := ⟨"alice", "m1", 100, 0, 30, "p1", ⟨"m1", 30, .pending⟩⟩

/-! ## The claims -/

/-- C1: the claim that every money-movement settlement with payer balance
strictly below the amount fails with InsufficientFunds is violated by
`POST /process-payment/:paymentId`: its funds check is commented out in
the source (part_000 lines 464-465), so from a state where the payer
holds 10 and the payment amount is 50 the settlement succeeds, moves the
money, and leaves the payer at -40. -/
theorem processPaymentSkipsFundsCheck :
    stC1.users "alice" = some 10 ∧
    (stC1.payments "p1").map PendingPayment.amount = some 50 ∧
    (10 : ℚ) < 50 ∧
    (processPayment stC1 "p1" "alice" true).2 = none ∧
    (processPayment stC1 "p1" "alice" true).1.users "alice" = some (-40) ∧
    (processPayment stC1 "p1" "alice" true).1.merchants "m1" = some 55 ∧
    (processPayment stC1 "p1" "alice" true).1.ledger =
      [⟨"alice", "m1", 50, .merchant_payment⟩] := by
  refine ⟨rfl, rfl, by norm_num, rfl, ?_, ?_, ?_⟩ <;>
    norm_num +decide [processPayment, ppRead, ppCommit, stC1]

/-- C2: the claim that balances stay non-negative after every committed
operation is violated: starting from a state whose balances are all
non-negative (5 and 3), the merchant settlement of the pending amount 12
commits and leaves the student at -7. -/
theorem processPaymentBreaksNonNegativity :
    stC2.users "bob" = some 5 ∧ (0 : ℚ) ≤ 5 ∧
    stC2.merchants "m2" = some 3 ∧ (0 : ℚ) ≤ 3 ∧
    (processPayment stC2 "p2" "bob" true).2 = none ∧
    (processPayment stC2 "p2" "bob" true).1.users "bob" = some (-7) ∧
    (-7 : ℚ) < 0 := by
  refine ⟨rfl, by norm_num, rfl, by norm_num, rfl, ?_, by norm_num⟩
  norm_num +decide [processPayment, ppRead, ppCommit, stC2]

/-- C6: the claim that a settlement called with amount ≤ 0 fails with
InvalidAmount and has no effect is violated: no route validates the
amount, so `POST /send` with amount -50 succeeds, credits the sender by
50, drives the recipient to -30, and appends a ledger entry with the
negative amount. -/
theorem sendAcceptsNonpositiveAmount :
    (-50 : ℚ) ≤ 0 ∧
    (send stC6 "alice" "bob" (-50)).2 = none ∧
    (send stC6 "alice" "bob" (-50)).1.users "alice" = some 150 ∧
    (send stC6 "alice" "bob" (-50)).1.users "bob" = some (-30) ∧
    (send stC6 "alice" "bob" (-50)).1.ledger = [⟨"alice", "bob", -50, .send⟩] := by
  refine ⟨by norm_num, rfl, ?_, ?_, ?_⟩ <;> norm_num +decide [send, stC6]

/-- C7: the claim that of two concurrent settles on the same request
exactly one succeeds and exactly one ledger entry is created is violated.
Each `process-payment` handler suspends at its awaited reads, so both
handlers can read payment `p1` as `pending` (the read phase `ppRead`)
before either performs its writes (`ppCommit`); then both report success
and the interleaved run commits twice: two ledger entries are appended,
while each handler's stale snapshot makes the second balance writes
overwrite the first (a lost update on both balances). -/
theorem doubleSettleBothSucceed :
    ppRead stC7 "p1" "alice" true = .ok locC7 ∧
    (ppCommit (ppCommit stC7 locC7) locC7).ledger =
      [⟨"alice", "m1", 30, .merchant_payment⟩, ⟨"alice", "m1", 30, .merchant_payment⟩] ∧
    (ppCommit (ppCommit stC7 locC7) locC7).users "alice" = some 70 ∧
    (ppCommit (ppCommit stC7 locC7) locC7).merchants "m1" = some 30 ∧
    (ppCommit (ppCommit stC7 locC7) locC7).payments "p1" =
      some ⟨"m1", 30, .completed⟩ ∧
    processPayment stC7 "p1" "alice" true = (ppCommit stC7 locC7, none) := by
  refine ⟨rfl, rfl, ?_, ?_, ?_, rfl⟩ <;>
    norm_num +decide [ppCommit, locC7, stC7]

/-- C3: a send between distinct existing accounts with sufficient funds
succeeds, debits the sender by exactly the amount, credits the recipient
by exactly the amount, preserves the sum of the two balances, and
appends exactly one `send` ledger entry with those participants and that
amount (`POST /send`, server.js lines 183-212). -/
theorem sendTransferCorrect (s : St) (A B : String) (a b m : ℚ)
    (hA : s.users A = some a) (hB : s.users B = some b) (hAB : A ≠ B)
    (hm : m ≤ a) :
    (send s A B m).2 = none ∧
    (send s A B m).1.users A = some (a - m) ∧
    (send s A B m).1.users B = some (b + m) ∧
    (a - m) + (b + m) = a + b ∧
    (send s A B m).1.ledger = s.ledger ++ [⟨A, B, m, .send⟩] := by
  simp only [send, hA, hB, if_neg (not_lt.mpr hm)]
  refine ⟨trivial, ?_, ?_, by ring, trivial⟩
  · simp [hAB]
  · simp

/-- Witness for C3 at a concrete state: `a` holds 100, `b` holds 20, and
40 is sent. -/
theorem sendTransferCorrectWitness :
    (send stC6 "alice" "bob" 40).2 = none ∧
    (send stC6 "alice" "bob" 40).1.users "alice" = some (100 - 40) ∧
    (send stC6 "alice" "bob" 40).1.users "bob" = some (20 + 40) ∧
    (100 - 40 : ℚ) + (20 + 40) = 100 + 20 ∧
    (send stC6 "alice" "bob" 40).1.ledger = stC6.ledger ++ [⟨"alice", "bob", 40, .send⟩] :=
  sendTransferCorrect stC6 "alice" "bob" 100 20 40 rfl rfl (by decide) (by norm_num)

/-- State for C4's witness: one already-completed QR request `r0` and
pending payment `pm0`, plus one live QR request `r1` and pending payment
`p1` that can settle. -/
def stC4 : St :=
  { users := fun x => if x = "alice" then some 100 else if x = "bob" then some 0 else none
    merchants := fun x => if x = "m1" then some 0 else none
    qrRequests := fun x =>
      if x = "r0" then some ⟨"bob", some 10, .completed, 0⟩
      else if x = "r1" then some ⟨"bob", some 40, .in_progress, 0⟩ else none
    payments := fun x =>
      if x = "pm0" then some ⟨"m1", 10, .completed⟩
      else if x = "p1" then some ⟨"m1", 30, .pending⟩ else none
    ledger := [] }

/-- C4: a settle attempt on a request whose status is not the initial one
fails (the QR route's 404 and the merchant route's "Payment already
processed") with the state exactly unchanged, and a successful settle
starts from the initial status and flips it to `completed` — so no
request leaves a terminal state. -/
theorem settleOneShot
    (s : St) (rid pid : String) (amt : Option ℚ) (q : QrReq)
    (hq : s.qrRequests rid = some q) (hqs : q.status ≠ .in_progress)
    (u : St) (pm st : String) (pw : Bool) (p : PendingPayment)
    (hp : u.payments pm = some p) (hps : p.status ≠ .pending)
    (t t' : St) (rid2 pid2 : String) (amt2 : Option ℚ) (q2 : QrReq)
    (ht : t.qrRequests rid2 = some q2)
    (hsucc : qrSettle t rid2 pid2 amt2 = (t', none))
    (v v' : St) (pm2 st2 : String) (pw2 : Bool) (p2 : PendingPayment)
    (hv : v.payments pm2 = some p2)
    (hsucc2 : processPayment v pm2 st2 pw2 = (v', none)) :
    qrSettle s rid pid amt = (s, some .TxNotFoundOrCompleted) ∧
    processPayment u pm st pw = (u, some .PaymentAlreadyProcessed) ∧
    q2.status = .in_progress ∧
    t'.qrRequests rid2 = some { q2 with status := .completed } ∧
    p2.status = .pending ∧
    v'.payments pm2 = some { p2 with status := .completed } := by
  obtain ⟨hin, recipBal, senderBal, m, hr, hm, hsb, hlt, ht'⟩ :=
    qrSettle_ok t t' rid2 pid2 amt2 q2 ht hsucc
  obtain ⟨l, heq, hv'⟩ := processPayment_ok v v' pm2 st2 pw2 hsucc2
  obtain ⟨hpend, hl1, hl2, hl3, hl4, hl5, -, -⟩ :=
    ppRead_ok_spec v pm2 st2 pw2 p2 l hv heq
  refine ⟨?_, ?_, hin, ?_, hpend, ?_⟩
  · simp only [qrSettle, hq]
    rw [if_pos hqs]
  · simp only [processPayment, ppRead, hp]
    rw [if_pos hps]
  · subst ht'; simp
  · subst hv'; simp [ppCommit, hl4, hl5]

/-- Witness for C4 on `stC4`: settling the completed request `r0` and the
completed payment `pm0` fails without touching the state, while settling
the live `r1` and `p1` flips each to `completed`. -/
theorem settleOneShotWitness :
    qrSettle stC4 "r0" "alice" none = (stC4, some .TxNotFoundOrCompleted) ∧
    processPayment stC4 "pm0" "alice" true = (stC4, some .PaymentAlreadyProcessed) ∧
    QrStatus.in_progress = QrStatus.in_progress ∧
    (qrSettle stC4 "r1" "alice" none).1.qrRequests "r1" =
      some ⟨"bob", some 40, .completed, 0⟩ ∧
    PayStatus.pending = PayStatus.pending ∧
    (processPayment stC4 "p1" "alice" true).1.payments "p1" =
      some ⟨"m1", 30, .completed⟩ :=
  settleOneShot stC4 "r0" "alice" none ⟨"bob", some 10, .completed, 0⟩ rfl (by decide)
    stC4 "pm0" "alice" true ⟨"m1", 10, .completed⟩ rfl (by decide)
    stC4 (qrSettle stC4 "r1" "alice" none).1 "r1" "alice" none
    ⟨"bob", some 40, .in_progress, 0⟩ rfl rfl
    stC4 (processPayment stC4 "p1" "alice" true).1 "p1" "alice" true
    ⟨"m1", 30, .pending⟩ rfl rfl

/-- State for C5: QR request `r1` was created at time 0 with status still
`in_progress`; `alice` holds 100, `bob` holds 0; no pending merchant
payment exists (the storage TTL removes the document itself). -/
def stC5 : St :=
  { users := fun x => if x = "alice" then some 100 else if x = "bob" then some 0 else none
    merchants := fun _ => none
    qrRequests := fun x =>
      if x = "r1" then some ⟨"bob", some 40, .in_progress, 0⟩ else none
    payments := fun _ => none
    ledger := [] }

/-- Counterexample to C5: QR request `r1` was created at time 0 and is
settled at time 7200, well past the one-hour TTL the spec posits, yet the
settlement succeeds and moves the money — the QR route checks no expiry
at all, and no RequestExpired error exists anywhere in the code. -/
theorem qrSettleIgnoresExpiry :
    (stC5.qrRequests "r1").map QrReq.timestamp = some 0 ∧
    (stC5.qrRequests "r1").map QrReq.status = some .in_progress ∧
    3600 < 7200 - 0 ∧
    (qrSettleAt 7200 stC5 "r1" "alice" none).2 = none ∧
    (qrSettleAt 7200 stC5 "r1" "alice" none).1.users "alice" = some 60 ∧
    (qrSettleAt 7200 stC5 "r1" "alice" none).1.users "bob" = some 40 := by
  refine ⟨rfl, rfl, by norm_num, rfl, ?_, ?_⟩ <;>
    norm_num +decide [qrSettleAt, qrSettle, resolveAmount, stC5]

/-- C5 amended: settlement performs no expiry check.  A QR request in the
initial status settles successfully at any invocation time `now` and for
any creation `q.timestamp` (both are unconstrained below), flipping the
status to `completed`; and once the storage TTL has deleted a pending
merchant payment, settling it fails with "Payment not found" — not
RequestExpired — and mutates nothing. -/
theorem settleNoExpiryAmended (now : ℕ) (t : St) (rid pid : String)
    (bodyAmt : Option ℚ) (q : QrReq) (recipBal senderBal m : ℚ)
    (hq : t.qrRequests rid = some q) (hst : q.status = .in_progress)
    (hr : t.users q.toId = some recipBal)
    (ha : resolveAmount q.amount bodyAmt = some m)
    (hs : t.users pid = some senderBal) (hm : m ≤ senderBal)
    (v : St) (pm st2 : String) (pw : Bool)
    (hv : v.payments pm = none) :
    (qrSettleAt now t rid pid bodyAmt).2 = none ∧
    (qrSettleAt now t rid pid bodyAmt).1.qrRequests rid =
      some { q with status := .completed } ∧
    processPayment v pm st2 pw = (v, some .PaymentNotFound) := by
  refine ⟨?_, ?_, ?_⟩
  · simp [qrSettleAt, qrSettle, hq, hst, hr, ha, hs, not_lt.mpr hm]
  · simp [qrSettleAt, qrSettle, hq, hst, hr, ha, hs, not_lt.mpr hm]
  · simp only [processPayment, ppRead, hv]

/-- Witness for the amended C5: the two-hour-old request `r1` in `stC5`
settles at time 9999, and settling the TTL-deleted payment id `"gone"`
fails with PaymentNotFound. -/
theorem settleNoExpiryAmendedWitness :
    (qrSettleAt 9999 stC5 "r1" "alice" none).2 = none ∧
    (qrSettleAt 9999 stC5 "r1" "alice" none).1.qrRequests "r1" =
      some ⟨"bob", some 40, .completed, 0⟩ ∧
    processPayment stC5 "gone" "alice" true = (stC5, some .PaymentNotFound) :=
  settleNoExpiryAmended 9999 stC5 "r1" "alice" none
    ⟨"bob", some 40, .in_progress, 0⟩ 0 100 40 rfl rfl rfl rfl rfl (by norm_num)
    stC5 "gone" "alice" true rfl

/-- State for C8: user `u` holds 60; `v` holds 9. -/
def stC8 : St :=
  { users := fun x => if x = "u" then some 60 else if x = "v" then some 9 else none
    merchants := fun _ => none
    qrRequests := fun _ => none
    payments := fun _ => none
    ledger := [] }

/-- C8: an upload of `m` to an existing account credits it by exactly `m`,
debits no other account, and appends one ledger entry with
`from = "UPLOAD"`; a withdrawal of `n ≤ balance` debits the account by
exactly `n`, credits no other account, and appends one ledger entry with
`to = "WITHDRAW"`. -/
theorem uploadWithdrawCorrect (s : St) (A x : String) (a m : ℚ)
    (hA : s.users A = some a) (hx : x ≠ A)
    (t : St) (C y : String) (c n : ℚ)
    (hC : t.users C = some c) (hn : n ≤ c) (hy : y ≠ C) :
    (upload s A m).2 = none ∧
    (upload s A m).1.users A = some (a + m) ∧
    (upload s A m).1.users x = s.users x ∧
    (upload s A m).1.ledger = s.ledger ++ [⟨"UPLOAD", A, m, .upload⟩] ∧
    (withdraw t C n).2 = none ∧
    (withdraw t C n).1.users C = some (c - n) ∧
    (withdraw t C n).1.users y = t.users y ∧
    (withdraw t C n).1.ledger = t.ledger ++ [⟨C, "WITHDRAW", n, .withdraw⟩] := by
  simp only [upload, withdraw, hA, hC, if_neg (not_lt.mpr hn)]
  exact ⟨trivial, by simp, by simp [hx], trivial, trivial, by simp, by simp [hy], trivial⟩

/-- Witness for C8 on `stC8`, matching the spec's own examples: uploading
50 to `u` (balance 60) gives 110, withdrawing 60 from `u` gives 0, and
the uninvolved account `v` is untouched. -/
theorem uploadWithdrawCorrectWitness :
    (upload stC8 "u" 50).2 = none ∧
    (upload stC8 "u" 50).1.users "u" = some (60 + 50) ∧
    (upload stC8 "u" 50).1.users "v" = stC8.users "v" ∧
    (upload stC8 "u" 50).1.ledger = stC8.ledger ++ [⟨"UPLOAD", "u", 50, .upload⟩] ∧
    (withdraw stC8 "u" 60).2 = none ∧
    (withdraw stC8 "u" 60).1.users "u" = some (60 - 60) ∧
    (withdraw stC8 "u" 60).1.users "v" = stC8.users "v" ∧
    (withdraw stC8 "u" 60).1.ledger = stC8.ledger ++ [⟨"u", "WITHDRAW", 60, .withdraw⟩] :=
  uploadWithdrawCorrect stC8 "u" "v" 60 50 rfl (by decide)
    stC8 "u" "v" 60 60 rfl (by norm_num) (by decide)

/-- State for C9: `a` holds 100 and QR request `r` was issued by `a`
itself with no fixed amount. -/
def stC9 : St :=
  { users := fun x => if x = "a" then some 100 else none
    merchants := fun _ => none
    qrRequests := fun x => if x = "r" then some ⟨"a", none, .in_progress, 5⟩ else none
    payments := fun _ => none
    ledger := [] }

/-- C9: when payer and payee resolve to the same account, the two loaded
documents are independent snapshots of the same record, so a send (or a
QR settle of one's own request) succeeds and the credit written second
overwrites the debit written first: the stored balance ends at `b + m`,
and one ledger entry with identical `from` and `to` is appended. -/
theorem selfTransferNetsCredit (s : St) (A : String) (b m : ℚ)
    (hA : s.users A = some b) (hm : m ≤ b)
    (t : St) (rid pid : String) (q : QrReq) (b2 m2 : ℚ) (bodyAmt : Option ℚ)
    (hq : t.qrRequests rid = some q) (hst : q.status = .in_progress)
    (hself : q.toId = pid) (hp : t.users pid = some b2)
    (hamt : resolveAmount q.amount bodyAmt = some m2) (hm2 : m2 ≤ b2) :
    (send s A A m).2 = none ∧
    (send s A A m).1.users A = some (b + m) ∧
    (send s A A m).1.ledger = s.ledger ++ [⟨A, A, m, .send⟩] ∧
    (qrSettle t rid pid bodyAmt).2 = none ∧
    (qrSettle t rid pid bodyAmt).1.users pid = some (b2 + m2) ∧
    (qrSettle t rid pid bodyAmt).1.ledger = t.ledger ++ [⟨pid, pid, m2, .send⟩] := by
  subst hself
  refine ⟨?_, ?_, ?_, ?_, ?_, ?_⟩ <;>
    simp [send, qrSettle, hA, hq, hst, hp, hamt, not_lt.mpr hm, not_lt.mpr hm2]

/-- Witness for C9 on `stC9`: `a` sends 30 to itself ending at 130, and
`a` settles its own QR request `r` with body amount 25 ending at 125. -/
theorem selfTransferNetsCreditWitness :
    (send stC9 "a" "a" 30).2 = none ∧
    (send stC9 "a" "a" 30).1.users "a" = some (100 + 30) ∧
    (send stC9 "a" "a" 30).1.ledger = stC9.ledger ++ [⟨"a", "a", 30, .send⟩] ∧
    (qrSettle stC9 "r" "a" (some 25)).2 = none ∧
    (qrSettle stC9 "r" "a" (some 25)).1.users "a" = some (100 + 25) ∧
    (qrSettle stC9 "r" "a" (some 25)).1.ledger = stC9.ledger ++ [⟨"a", "a", 25, .send⟩] :=
  selfTransferNetsCredit stC9 "a" 100 30 rfl (by norm_num)
    stC9 "r" "a" ⟨"a", none, .in_progress, 5⟩ 100 25 (some 25)
    rfl rfl rfl rfl (by decide) (by norm_num)

/-- State for C10: `a` 100 and `b` 20 with bystander `c` 7; merchants `m` 1
and bystander `n` 2; payment `p` over amount 30 to merchant `m` pending. -/
def stC10 : St :=
  { users := fun x =>
      if x = "a" then some 100 else if x = "b" then some 20
      else if x = "c" then some 7 else none
    merchants := fun x => if x = "m" then some 1 else if x = "n" then some 2 else none
    qrRequests := fun _ => none
    payments := fun x => if x = "p" then some ⟨"m", 30, .pending⟩ else none
    ledger := [] }

/-- C10: a successful send, withdrawal, or merchant payment with distinct
payer and payee leaves the balance of every uninvolved account unchanged
and extends the ledger by exactly one entry, preserving all earlier
entries. -/
theorem settlementFrame
    (s s' : St) (A B x : String) (m : ℚ)
    (_hAB : A ≠ B) (hs : send s A B m = (s', none)) (hxA : x ≠ A) (hxB : x ≠ B)
    (t t' : St) (C y : String) (n : ℚ)
    (hw : withdraw t C n = (t', none)) (hy : y ≠ C)
    (v v' : St) (pm st z w : String) (pw : Bool) (p : PendingPayment)
    (hvp : v.payments pm = some p)
    (hpp : processPayment v pm st pw = (v', none))
    (hz : z ≠ st) (hwm : w ≠ p.merchantId) :
    s'.users x = s.users x ∧
    s'.ledger = s.ledger ++ [⟨A, B, m, .send⟩] ∧
    t'.users y = t.users y ∧
    t'.ledger = t.ledger ++ [⟨C, "WITHDRAW", n, .withdraw⟩] ∧
    v'.users z = v.users z ∧
    v'.merchants w = v.merchants w ∧
    v'.ledger = v.ledger ++ [⟨st, p.merchantId, p.amount, .merchant_payment⟩] := by
  obtain ⟨recipBal, senderBal, hB, hA, hlt, rfl⟩ := send_ok s s' A B m hs
  obtain ⟨bal, hC, hlt2, rfl⟩ := withdraw_ok t t' C n hw
  obtain ⟨l, heq, rfl⟩ := processPayment_ok v v' pm st pw hpp
  obtain ⟨hpend, hl1, hl2, hl3, hl4, hl5, -, -⟩ := ppRead_ok_spec v pm st pw p l hvp heq
  refine ⟨by simp [hxA, hxB], by simp, by simp [hy], by simp, ?_, ?_, ?_⟩
  · simp [ppCommit, hl1, hz]
  · simp [ppCommit, hl2, hwm]
  · simp [ppCommit, hl1, hl2, hl3]

/-- Witness for C10 on `stC10`: after `a` sends 40 to `b`, after `a`
withdraws 60, and after `a` settles payment `p` to merchant `m`, the
bystanders `c` and `n` are untouched and the ledger grew by exactly the
one new entry in each case. -/
theorem settlementFrameWitness :
    (send stC10 "a" "b" 40).1.users "c" = stC10.users "c" ∧
    (send stC10 "a" "b" 40).1.ledger = stC10.ledger ++ [⟨"a", "b", 40, .send⟩] ∧
    (withdraw stC10 "a" 60).1.users "c" = stC10.users "c" ∧
    (withdraw stC10 "a" 60).1.ledger = stC10.ledger ++ [⟨"a", "WITHDRAW", 60, .withdraw⟩] ∧
    (processPayment stC10 "p" "a" true).1.users "c" = stC10.users "c" ∧
    (processPayment stC10 "p" "a" true).1.merchants "n" = stC10.merchants "n" ∧
    (processPayment stC10 "p" "a" true).1.ledger =
      stC10.ledger ++ [⟨"a", "m", 30, .merchant_payment⟩] :=
  settlementFrame stC10 (send stC10 "a" "b" 40).1 "a" "b" "c" 40
    (by decide) rfl (by decide) (by decide)
    stC10 (withdraw stC10 "a" 60).1 "a" "c" 60 rfl (by decide)
    stC10 (processPayment stC10 "p" "a" true).1 "p" "a" "c" "n" true
    ⟨"m", 30, .pending⟩ rfl rfl (by decide) (by decide)
